import Mathlib

/-
  Shallow embedding of the avara-weather data-freshness and credential-lifecycle
  subsystem:
    - src/src/lib/opensky-oauth.js   (token cache, getAccessToken, getAuthHeaders)
    - src/src/lib/flight-cache.js    (snapshot cache)
    - src/src/app/api/flights/route.js (request handler GET)
    - src/unnamed/part_008           (scheduled cron refresher GET)
  JavaScript runtime behavior (truthiness, null vs undefined, strict equality)
  is modelled explicitly.  Times are epoch milliseconds as Nat; ages are Int.
  Network interactions are modelled by outcome oracles supplied as inputs.
-/

namespace Avara

/-- JS values as they occur in this code base: null, undefined, booleans,
numbers (integers suffice for every claim) and strings. -/
inductive JsValue
  | jnull
  | jundef
  | jbool (b : Bool)
  | jnum (n : Int)
  | jstr (s : String)
deriving DecidableEq, Repr

/-- JS truthiness of a string-or-null/undefined value (empty string is falsy). -/
def jsTruthy : Option String → Bool
  | none => false
  | some s => decide (s ≠ "")

/-- JS array indexing: out-of-range access yields undefined. -/
def listIdx (l : List JsValue) (i : Nat) : JsValue :=
  l.getD i JsValue.jundef

/-- Optional chaining plus trim, as in state[1]?.trim(): null/undefined yield
undefined, a string is trimmed.  (On other values the JS code would throw; the
routes only ever see strings or null at the callsign position.) -/
def jtrim : JsValue → JsValue
  | JsValue.jnull => JsValue.jundef
  | JsValue.jundef => JsValue.jundef
  | JsValue.jstr s => JsValue.jstr s.trim
  | v => v

/-- The 17-field normalized flight record built in route.js lines 149-166. -/
structure FlightRecord where
  icao24 : JsValue
  callsign : JsValue
  origin_country : JsValue
  time_position : JsValue
  last_contact : JsValue
  longitude : JsValue
  latitude : JsValue
  baro_altitude : JsValue
  on_ground : JsValue
  velocity : JsValue
  true_track : JsValue
  vertical_rate : JsValue
  sensors : JsValue
  geo_altitude : JsValue
  squawk : JsValue
  spi : JsValue
  position_source : JsValue
deriving DecidableEq, Repr

/-- Positional mapping of one raw upstream row (route.js lines 149-166,
identically part_008 lines 93-110). -/
def mkFlightRecord (state : List JsValue) : FlightRecord where
  icao24 := listIdx state 0
  callsign := jtrim (listIdx state 1)
  origin_country := listIdx state 2
  time_position := listIdx state 3
  last_contact := listIdx state 4
  longitude := listIdx state 5
  latitude := listIdx state 6
  baro_altitude := listIdx state 7
  on_ground := listIdx state 8
  velocity := listIdx state 9
  true_track := listIdx state 10
  vertical_rate := listIdx state 11
  sensors := listIdx state 12
  geo_altitude := listIdx state 13
  squawk := listIdx state 14
  spi := listIdx state 15
  position_source := listIdx state 16

/-- The filter of route.js lines 167-170: strict inequality against null only
(undefined passes). -/
def keepsCoords (f : FlightRecord) : Bool :=
  decide (f.longitude ≠ JsValue.jnull) && decide (f.latitude ≠ JsValue.jnull)

/-- data.states ? data.states.map(...).filter(...) : [] -/
def normalizeStates : Option (List (List JsValue)) → List FlightRecord
  | none => []
  | some states => (states.map mkFlightRecord).filter keepsCoords

/-- Parsed JSON body of a successful states response: time plus the states
array (absent/null states modelled as none). -/
structure Payload where
  time : JsValue
  states : Option (List (List JsValue))
deriving DecidableEq, Repr

/- ===== opensky-oauth.js ===== -/

/-- Module state of opensky-oauth.js: cachedToken and tokenExpiry. -/
structure TokenState where
  cachedToken : Option String
  tokenExpiry : Option Nat
deriving DecidableEq, Repr

/-- process.env.OPENSKY_CLIENT_ID / OPENSKY_CLIENT_SECRET. -/
structure OAuthConfig where
  clientId : Option String
  clientSecret : Option String
deriving DecidableEq, Repr

/-- Outcome of one POST to the OAuth token endpoint. -/
inductive ExchangeOutcome
  | netError
  | httpError (status : Nat)
  | noToken
  | ok (access_token : String) (expires_in : Option Nat)
deriving DecidableEq, Repr

/-- Result of one getAccessToken call: returned value, new module state, and
the number of token-endpoint network requests issued (0 or 1). -/
structure GetTokenResult where
  token : Option String
  state : TokenState
  exchanges : Nat
deriving DecidableEq, Repr

/-- Guard of opensky-oauth.js line 16:
cachedToken AND tokenExpiry AND now < tokenExpiry - 5 minutes
(JS truthiness: empty token string and expiry 0 are falsy). -/
def tokenStillValid (st : TokenState) (now : Nat) : Bool :=
  match st.cachedToken, st.tokenExpiry with
  | some t, some e =>
      decide (t ≠ "") && decide (e ≠ 0) &&
        decide ((now : Int) < (e : Int) - 5 * 60 * 1000)
  | _, _ => false

/-- getAccessToken (opensky-oauth.js lines 14-105).  The network outcome of
the grant exchange, when one is attempted, is the oracle w. -/
def getAccessToken (cfg : OAuthConfig) (st : TokenState) (now : Nat)
    (w : ExchangeOutcome) : GetTokenResult :=
  if tokenStillValid st now then
    ⟨st.cachedToken, st, 0⟩
  else if !(jsTruthy cfg.clientId) || !(jsTruthy cfg.clientSecret) then
    ⟨none, st, 0⟩
  else
    match w with
    | ExchangeOutcome.ok tok expIn =>
        let expiresIn := match expIn with
          | some n => if n = 0 then 3600 else n
          | none => 3600
        ⟨some tok, ⟨some tok, some (now + expiresIn * 1000)⟩, 1⟩
    | _ => ⟨none, ⟨none, none⟩, 1⟩

/-- clearTokenCache (opensky-oauth.js lines 134-138). -/
def clearTokenCache : TokenState := ⟨none, none⟩

/-- Result of getAuthHeaders: the Authorization bearer value when present,
plus the threaded token state and exchange count. -/
structure AuthHeaders where
  authorization : Option String
  state : TokenState
  exchanges : Nat
deriving DecidableEq, Repr

/-- getAuthHeaders (opensky-oauth.js lines 111-129): Authorization header is
present iff getAccessToken returned a truthy token. -/
def getAuthHeaders (cfg : OAuthConfig) (st : TokenState) (now : Nat)
    (w : ExchangeOutcome) : AuthHeaders :=
  let r := getAccessToken cfg st now w
  ⟨if jsTruthy r.token then r.token else none, r.state, r.exchanges⟩

/- ===== flight-cache.js ===== -/

def CACHE_DURATION_MS : Nat := 10000
def MAX_CACHE_AGE_MS : Nat := 60000

/-- The object stored by setCachedFlights (minus cachedAt). -/
structure CacheData where
  flights : List FlightRecord
  time : JsValue
  count : Nat
  source : String
deriving DecidableEq, Repr

/-- cachedFlightData: the cache data plus its cachedAt stamp. -/
structure CacheEntry where
  data : CacheData
  cachedAt : Nat
deriving DecidableEq, Repr

/-- Module state of flight-cache.js: cachedFlightData and lastUpdateTime. -/
structure FlightCacheState where
  cachedFlightData : Option CacheEntry
  lastUpdateTime : Option Nat
deriving DecidableEq, Repr

/-- setCachedFlights (flight-cache.js lines 19-29): whole-object replacement,
both stamps set to now. -/
def setCachedFlights (d : CacheData) (now : Nat) : FlightCacheState :=
  ⟨some ⟨d, now⟩, some now⟩

/-- hasFreshCache (flight-cache.js lines 59-66): requires both module fields
truthy (lastUpdateTime 0 is falsy) and age strictly below MAX_CACHE_AGE_MS. -/
def hasFreshCache (st : FlightCacheState) (now : Nat) : Bool :=
  match st.cachedFlightData, st.lastUpdateTime with
  | some _, some t =>
      decide (t ≠ 0) && decide ((now : Int) - (t : Int) < (MAX_CACHE_AGE_MS : Int))
  | _, _ => false

/-- The enriched view returned by getCachedFlights. -/
structure CachedView where
  flights : List FlightRecord
  time : JsValue
  count : Nat
  source : String
  cachedAt : Nat
  cacheAge : Int
  cacheAgeSeconds : Int
  isFresh : Bool
  isStale : Bool
deriving DecidableEq, Repr

/-- getCachedFlights (flight-cache.js lines 35-53).  A null lastUpdateTime
coerces to 0 in the JS subtraction. -/
def getCachedFlights (st : FlightCacheState) (now : Nat) : Option CachedView :=
  match st.cachedFlightData with
  | none => none
  | some c =>
      let age : Int := (now : Int) - (st.lastUpdateTime.getD 0 : Int)
      some ⟨c.data.flights, c.data.time, c.data.count, c.data.source, c.cachedAt,
        age, (age + 500) / 1000,
        decide (age < (CACHE_DURATION_MS : Int)),
        decide (age > (MAX_CACHE_AGE_MS : Int))⟩

/-- clearCache (flight-cache.js lines 86-90). -/
def clearCache : FlightCacheState := ⟨none, none⟩

/- ===== api/flights/route.js ===== -/

/-- Query parameters of a flights request (searchParams.get returns the raw
string or null). -/
structure QueryParams where
  lamin : Option String
  lomin : Option String
  lamax : Option String
  lomax : Option String
  force : Option String
deriving DecidableEq, Repr

/-- route.js line 33: hasBoundingBox = lamin AND lomin AND lamax AND lomax
under JS truthiness. -/
def hasBoundingBox (p : QueryParams) : Bool :=
  jsTruthy p.lamin && jsTruthy p.lomin && jsTruthy p.lamax && jsTruthy p.lomax

/-- route.js line 30: forceRefresh = (force === "true"). -/
def forceRefresh (p : QueryParams) : Bool :=
  p.force == some "true"

/-- Outcome of one GET of the states endpoint: timeout (abort), other network
error, or a response with a status and either a parseable JSON body or not. -/
inductive FetchOutcome
  | timeout
  | netError (message : String)
  | resp (status : Nat) (body : Payload)
  | respBadJson (status : Nat)
deriving DecidableEq, Repr

/-- The network environment of one handler run: outcome of the token exchange
reached from the initial getAuthHeaders, of the first states fetch, of the
token exchange during the 401 retry, and of the retry states fetch. -/
structure RouteWorld where
  exchange1 : ExchangeOutcome
  fetch1 : FetchOutcome
  exchange2 : ExchangeOutcome
  fetch2 : FetchOutcome
deriving DecidableEq, Repr

/-- response.ok in fetch: status in 200-299. -/
def statusOk (s : Nat) : Bool :=
  decide (200 ≤ s) && decide (s < 300)

def timeoutMessage : String :=
  "OpenSky API request timed out. The service may be slow or unavailable."

def rateLimitedAuthMessage : String :=
  "Rate limit exceeded. You may have hit your authenticated quota; try later."

def rateLimitedAnonMessage : String :=
  "Rate limit exceeded. Anonymous users are limited to 100 requests/day. Configure OPENSKY_CLIENT_ID/OPENSKY_CLIENT_SECRET."

def authFailedMessage : String :=
  "Authentication failed with OAuth2. Verify OPENSKY_CLIENT_ID and OPENSKY_CLIENT_SECRET."

def unavailableMessage : String :=
  "OpenSky Network service is temporarily unavailable. Please try again later."

def apiReturnedMessage (status : Nat) : String :=
  "OpenSky API returned " ++ toString status

/-- Message of the AbortError thrown by an unguarded aborted retry fetch
(engine-supplied text; its exact wording is irrelevant to every claim). -/
def abortMessage : String := "This operation was aborted"

/-- Message of the SyntaxError thrown by response.json() on a malformed body
(engine-supplied text; its exact wording is irrelevant to every claim). -/
def jsonErrorMessage : String := "Unexpected end of JSON input"

/-- route.js lines 126-142: error message selection for a non-ok response. -/
def errorStatusMessage (status : Nat) (hasAuth : Bool) : String :=
  if status = 429 then
    (if hasAuth then rateLimitedAuthMessage else rateLimitedAnonMessage)
  else if status = 401 then authFailedMessage
  else if status = 503 then unavailableMessage
  else apiReturnedMessage status

/-- The three response shapes the flights route produces: a cache hit
(cached true, X-Cache-Status HIT), a direct-fetch success (cached false), or
the catch-all 500 error body. -/
inductive RouteResponse
  | cacheHit (flights : List FlightRecord) (time : JsValue) (count : Nat)
      (source : String) (cacheAge : Int)
  | fetched (flights : List FlightRecord) (time : JsValue) (count : Nat)
      (source : String)
  | errorResp (details : String)
deriving DecidableEq, Repr

/-- Full observable outcome of one flights GET: the response, the final token
and cache module states, the number of states-endpoint fetches issued, and
the number of setCachedFlights invocations. -/
structure RouteResult where
  response : RouteResponse
  tokState : TokenState
  cacheState : FlightCacheState
  statesFetches : Nat
  cacheWrites : Nat
deriving DecidableEq, Repr

/-- route.js lines 126-199: after a final response is chosen, either throw the
status-specific error or normalize, cache when global, and respond. -/
def routeFinish (hasAuth hasBB : Bool) (cache0 : FlightCacheState) (now : Nat)
    (status : Nat) (body : Option Payload) (tokF : TokenState) (nFetch : Nat) :
    RouteResult :=
  if statusOk status = false then
    ⟨RouteResponse.errorResp (errorStatusMessage status hasAuth), tokF, cache0, nFetch, 0⟩
  else
    match body with
    | none => ⟨RouteResponse.errorResp jsonErrorMessage, tokF, cache0, nFetch, 0⟩
    | some b =>
        let flights := normalizeStates b.states
        let source := if hasAuth then "opensky-authenticated" else "opensky-anonymous"
        if hasBB = false then
          ⟨RouteResponse.fetched flights b.time flights.length source, tokF,
            setCachedFlights ⟨flights, b.time, flights.length, source⟩ now, nFetch, 1⟩
        else
          ⟨RouteResponse.fetched flights b.time flights.length source, tokF,
            cache0, nFetch, 0⟩

/-- route.js lines 110-124: one-shot 401 retry.  hasAuth is the flag computed
from the initial headers; the retry clears the token cache and re-derives
headers from the cleared state.  The retry fetch itself is not guarded by the
AbortError-translating try/catch. -/
def routeAfterFirst (cfg : OAuthConfig) (cache0 : FlightCacheState) (now : Nat)
    (hasAuth hasBB : Bool) (tok1 : TokenState) (w : RouteWorld)
    (status : Nat) (body : Option Payload) : RouteResult :=
  if status = 401 ∧ hasAuth = true then
    let h2 := getAuthHeaders cfg clearTokenCache now w.exchange2
    match w.fetch2 with
    | FetchOutcome.timeout =>
        ⟨RouteResponse.errorResp abortMessage, h2.state, cache0, 2, 0⟩
    | FetchOutcome.netError m =>
        ⟨RouteResponse.errorResp m, h2.state, cache0, 2, 0⟩
    | FetchOutcome.resp s2 b2 => routeFinish hasAuth hasBB cache0 now s2 (some b2) h2.state 2
    | FetchOutcome.respBadJson s2 => routeFinish hasAuth hasBB cache0 now s2 none h2.state 2
  else routeFinish hasAuth hasBB cache0 now status body tok1 1

/-- route.js lines 73-199: the direct-fetch fallback path. -/
def directFetch (cfg : OAuthConfig) (tok0 : TokenState) (cache0 : FlightCacheState)
    (now : Nat) (hasBB : Bool) (w : RouteWorld) : RouteResult :=
  let h1 := getAuthHeaders cfg tok0 now w.exchange1
  let hasAuth := h1.authorization.isSome
  match w.fetch1 with
  | FetchOutcome.timeout =>
      ⟨RouteResponse.errorResp timeoutMessage, h1.state, cache0, 1, 0⟩
  | FetchOutcome.netError m =>
      ⟨RouteResponse.errorResp m, h1.state, cache0, 1, 0⟩
  | FetchOutcome.resp s b => routeAfterFirst cfg cache0 now hasAuth hasBB h1.state w s (some b)
  | FetchOutcome.respBadJson s => routeAfterFirst cfg cache0 now hasAuth hasBB h1.state w s none

/-- route.js lines 36-39: the serve-from-cache guard
(no bounding box, no force, cachedData truthy, hasFreshCache). -/
def servesFromCache (p : QueryParams) (cache : FlightCacheState) (now : Nat) : Bool :=
  !(hasBoundingBox p) && !(forceRefresh p) &&
    (getCachedFlights cache now).isSome && hasFreshCache cache now

/-- The flights GET handler (route.js lines 21-208). -/
def flightsGET (cfg : OAuthConfig) (tok0 : TokenState) (cache0 : FlightCacheState)
    (now : Nat) (p : QueryParams) (w : RouteWorld) : RouteResult :=
  if servesFromCache p cache0 now then
    match getCachedFlights cache0 now with
    | some v =>
        ⟨RouteResponse.cacheHit v.flights v.time v.count v.source v.cacheAgeSeconds,
          tok0, cache0, 0, 0⟩
    | none => ⟨RouteResponse.errorResp "", tok0, cache0, 0, 0⟩
  else
    directFetch cfg tok0 cache0 now (hasBoundingBox p) w

def isCacheHit : RouteResponse → Bool
  | RouteResponse.cacheHit _ _ _ _ _ => true
  | _ => false

def isFetched : RouteResponse → Bool
  | RouteResponse.fetched _ _ _ _ => true
  | _ => false

/- ===== scheduled refresher (src/unnamed/part_008) ===== -/

def cronTimeoutMessage : String := "OpenSky API request timed out"

/-- The three response shapes of the cron route: the 401 unauthorized body
(error only, no duration), the success summary, and the caught-failure summary
(which carries the run duration). -/
inductive CronResponse
  | unauthorized
  | success (flightCount : Nat) (duration : Nat) (source : String)
  | failure (details : String) (duration : Nat)
deriving DecidableEq, Repr

/-- Full observable outcome of one cron GET. -/
structure CronResult where
  response : CronResponse
  tokState : TokenState
  cacheState : FlightCacheState
  statesFetches : Nat
  cacheWrites : Nat
deriving DecidableEq, Repr

/-- part_008 lines 85-135: throw on non-ok (generic message), otherwise
normalize, always cache, and report the success summary. -/
def cronFinish (cache0 : FlightCacheState) (now duration : Nat) (hasAuth : Bool)
    (tokF : TokenState) (status : Nat) (body : Option Payload) (nFetch : Nat) :
    CronResult :=
  if statusOk status = false then
    ⟨CronResponse.failure (apiReturnedMessage status) duration, tokF, cache0, nFetch, 0⟩
  else
    match body with
    | none => ⟨CronResponse.failure jsonErrorMessage duration, tokF, cache0, nFetch, 0⟩
    | some b =>
        let flights := normalizeStates b.states
        let source := if hasAuth then "opensky-authenticated" else "opensky-anonymous"
        ⟨CronResponse.success flights.length duration source, tokF,
          setCachedFlights ⟨flights, b.time, flights.length, source⟩ now, nFetch, 1⟩

/-- part_008 lines 64-83: the cron one-shot 401 retry (its try/catch merely
rethrows, so an aborted retry surfaces the raw AbortError). -/
def cronAfterFirst (cfg : OAuthConfig) (cache0 : FlightCacheState)
    (now duration : Nat) (hasAuth : Bool) (tok1 : TokenState) (w : RouteWorld)
    (status : Nat) (body : Option Payload) : CronResult :=
  if status = 401 ∧ hasAuth = true then
    let h2 := getAuthHeaders cfg clearTokenCache now w.exchange2
    match w.fetch2 with
    | FetchOutcome.timeout =>
        ⟨CronResponse.failure abortMessage duration, h2.state, cache0, 2, 0⟩
    | FetchOutcome.netError m =>
        ⟨CronResponse.failure m duration, h2.state, cache0, 2, 0⟩
    | FetchOutcome.resp s2 b2 => cronFinish cache0 now duration hasAuth h2.state s2 (some b2) 2
    | FetchOutcome.respBadJson s2 => cronFinish cache0 now duration hasAuth h2.state s2 none 2
  else cronFinish cache0 now duration hasAuth tok1 status body 1

/-- The cron GET handler (part_008 lines 16-151).  duration stands for the
Date.now() - startTime value reported at the end of the run; authHeader is the
Authorization header of the trigger, cronSecret is process.env.CRON_SECRET. -/
def cronGET (cfg : OAuthConfig) (tok0 : TokenState) (cache0 : FlightCacheState)
    (now duration : Nat) (authHeader cronSecret : Option String)
    (w : RouteWorld) : CronResult :=
  if jsTruthy cronSecret && !(authHeader == some ("Bearer " ++ cronSecret.getD "")) then
    ⟨CronResponse.unauthorized, tok0, cache0, 0, 0⟩
  else
    let h1 := getAuthHeaders cfg tok0 now w.exchange1
    let hasAuth := h1.authorization.isSome
    match w.fetch1 with
    | FetchOutcome.timeout =>
        ⟨CronResponse.failure cronTimeoutMessage duration, h1.state, cache0, 1, 0⟩
    | FetchOutcome.netError m =>
        ⟨CronResponse.failure m duration, h1.state, cache0, 1, 0⟩
    | FetchOutcome.resp s b => cronAfterFirst cfg cache0 now duration hasAuth h1.state w s (some b)
    | FetchOutcome.respBadJson s => cronAfterFirst cfg cache0 now duration hasAuth h1.state w s none

def isCronSuccess : CronResponse → Bool
  | CronResponse.success _ _ _ => true
  | _ => false

/-- Token states reachable by the opensky-oauth.js module under a fixed
process configuration: the initial empty state, any getAccessToken step, and
clearTokenCache. -/
inductive TokenReach (cfg : OAuthConfig) : TokenState → Prop
  | init : TokenReach cfg ⟨none, none⟩
  | step (st : TokenState) (now : Nat) (w : ExchangeOutcome) :
      TokenReach cfg st → TokenReach cfg (getAccessToken cfg st now w).state
  | cleared (st : TokenState) : TokenReach cfg st → TokenReach cfg clearTokenCache

/- ===== concrete fixtures used in counterexamples and witnesses ===== -/

/-- A flights request with no query parameters at all. -/
def emptyParams : QueryParams := ⟨none, none, none, none, none⟩

/-- A network environment in which every outbound call fails. -/
def idleWorld : RouteWorld :=
  ⟨ExchangeOutcome.netError, FetchOutcome.netError "fetch failed",
    ExchangeOutcome.netError, FetchOutcome.netError "fetch failed"⟩

/-- A cache state holding an empty global snapshot captured at time t. -/
def snapshotAt (t : Nat) : FlightCacheState :=
  ⟨some ⟨⟨[], JsValue.jnum 1700000000, 0, "opensky-anonymous"⟩, t⟩, some t⟩

/-- A raw upstream row with both coordinates present and every other field
null. -/
def coordOnlyRow : List JsValue :=
  [JsValue.jnull, JsValue.jnull, JsValue.jnull, JsValue.jnull, JsValue.jnull,
    JsValue.jnum 20, JsValue.jnum 10, JsValue.jnull, JsValue.jnull, JsValue.jnull,
    JsValue.jnull, JsValue.jnull, JsValue.jnull, JsValue.jnull, JsValue.jnull,
    JsValue.jnull, JsValue.jnull]

/-- The FlightRecord produced from coordOnlyRow (callsign becomes undefined
through optional chaining; all other non-coordinate fields stay null). -/
def coordOnlyRecord : FlightRecord :=
  ⟨JsValue.jnull, JsValue.jundef, JsValue.jnull, JsValue.jnull, JsValue.jnull,
    JsValue.jnum 20, JsValue.jnum 10, JsValue.jnull, JsValue.jnull, JsValue.jnull,
    JsValue.jnull, JsValue.jnull, JsValue.jnull, JsValue.jnull, JsValue.jnull,
    JsValue.jnull, JsValue.jnull⟩

/-- The FlightRecord produced from the one-element raw row [jstr "abc"]: every
positional access past index 0 is out of range, so all remaining fields are
undefined, including both coordinates. -/
def shortRowRecord : FlightRecord :=
  ⟨JsValue.jstr "abc", JsValue.jundef, JsValue.jundef, JsValue.jundef, JsValue.jundef,
    JsValue.jundef, JsValue.jundef, JsValue.jundef, JsValue.jundef, JsValue.jundef,
    JsValue.jundef, JsValue.jundef, JsValue.jundef, JsValue.jundef, JsValue.jundef,
    JsValue.jundef, JsValue.jundef⟩

/- ===== helper lemmas ===== -/

theorem hasFreshCache_isSome (cache : FlightCacheState) (now : Nat)
    (h : hasFreshCache cache now = true) : (getCachedFlights cache now).isSome = true := by
  cases hc : cache.cachedFlightData <;> cases ht : cache.lastUpdateTime <;>
    simp_all [hasFreshCache, getCachedFlights]

theorem servesFromCache_eq_fresh (p : QueryParams) (cache : FlightCacheState) (now : Nat)
    (hbb : hasBoundingBox p = false) (hf : forceRefresh p = false) :
    servesFromCache p cache now = hasFreshCache cache now := by
  unfold servesFromCache
  rw [hbb, hf]
  cases hfc : hasFreshCache cache now
  · simp
  · simp [hasFreshCache_isSome cache now hfc]

theorem routeFinish_not_cacheHit (hA bb : Bool) (c : FlightCacheState) (now : Nat)
    (s : Nat) (b : Option Payload) (tok : TokenState) (n : Nat) :
    isCacheHit (routeFinish hA bb c now s b tok n).response = false := by
  unfold routeFinish
  split
  · rfl
  · cases b with
    | none => rfl
    | some p =>
        dsimp only
        split <;> rfl

theorem routeAfterFirst_not_cacheHit (cfg : OAuthConfig) (c : FlightCacheState)
    (now : Nat) (hA bb : Bool) (tok : TokenState) (w : RouteWorld)
    (s : Nat) (b : Option Payload) :
    isCacheHit (routeAfterFirst cfg c now hA bb tok w s b).response = false := by
  unfold routeAfterFirst
  split
  · cases w.fetch2 <;> first
      | rfl
      | exact routeFinish_not_cacheHit ..
  · exact routeFinish_not_cacheHit ..

theorem directFetch_not_cacheHit (cfg : OAuthConfig) (tok : TokenState)
    (c : FlightCacheState) (now : Nat) (bb : Bool) (w : RouteWorld) :
    isCacheHit (directFetch cfg tok c now bb w).response = false := by
  unfold directFetch
  cases w.fetch1 <;> first
    | rfl
    | exact routeAfterFirst_not_cacheHit ..

theorem routeFinish_statesFetches (hA bb : Bool) (c : FlightCacheState) (now s : Nat)
    (b : Option Payload) (tok : TokenState) (n : Nat) :
    (routeFinish hA bb c now s b tok n).statesFetches = n := by
  unfold routeFinish
  split
  · rfl
  · cases b with
    | none => rfl
    | some p =>
        dsimp only
        split <;> rfl

theorem routeFinish_tokState (hA bb : Bool) (c : FlightCacheState) (now s : Nat)
    (b : Option Payload) (tok : TokenState) (n : Nat) :
    (routeFinish hA bb c now s b tok n).tokState = tok := by
  unfold routeFinish
  split
  · rfl
  · cases b with
    | none => rfl
    | some p =>
        dsimp only
        split <;> rfl

theorem routeFinish_cacheWrites (hA bb : Bool) (c : FlightCacheState) (now s : Nat)
    (b : Option Payload) (tok : TokenState) (n : Nat) :
    (routeFinish hA bb c now s b tok n).cacheWrites =
      if statusOk s && b.isSome && !bb then 1 else 0 := by
  unfold routeFinish
  cases hst : statusOk s
  · simp [hst]
  · simp only [hst]
    cases b with
    | none => simp
    | some p => cases bb <;> simp

theorem routeFinish_isFetched (hA bb : Bool) (c : FlightCacheState) (now s : Nat)
    (b : Option Payload) (tok : TokenState) (n : Nat) :
    isFetched (routeFinish hA bb c now s b tok n).response = (statusOk s && b.isSome) := by
  unfold routeFinish
  cases hst : statusOk s
  · simp [hst, isFetched]
  · simp only [hst]
    cases b with
    | none => simp [isFetched]
    | some p => cases bb <;> simp [isFetched]

theorem routeAfterFirst_write_policy (cfg : OAuthConfig) (c : FlightCacheState)
    (now : Nat) (hA bb : Bool) (tok : TokenState) (w : RouteWorld)
    (s : Nat) (b : Option Payload) :
    (bb = true → (routeAfterFirst cfg c now hA bb tok w s b).cacheWrites = 0)
    ∧ (isFetched (routeAfterFirst cfg c now hA bb tok w s b).response = true →
        ((routeAfterFirst cfg c now hA bb tok w s b).cacheWrites = 1 ↔ bb = false)) := by
  unfold routeAfterFirst
  split
  · cases w.fetch2 with
    | timeout => exact ⟨fun _ => rfl, fun h => by simp [isFetched] at h⟩
    | netError m => exact ⟨fun _ => rfl, fun h => by simp [isFetched] at h⟩
    | resp s2 b2 =>
        refine ⟨fun hbb => ?_, fun hfet => ?_⟩
        · subst hbb
          rw [routeFinish_cacheWrites]
          simp
        · rw [routeFinish_isFetched] at hfet
          simp only [Bool.and_eq_true] at hfet
          obtain ⟨h1, _⟩ := hfet
          rw [routeFinish_cacheWrites]
          cases bb <;> simp [h1]
    | respBadJson s2 =>
        refine ⟨fun hbb => ?_, fun hfet => ?_⟩
        · rw [routeFinish_cacheWrites]
          simp
        · rw [routeFinish_isFetched] at hfet
          simp at hfet
  · refine ⟨fun hbb => ?_, fun hfet => ?_⟩
    · subst hbb
      rw [routeFinish_cacheWrites]
      simp
    · rw [routeFinish_isFetched] at hfet
      simp only [Bool.and_eq_true] at hfet
      obtain ⟨h1, h2⟩ := hfet
      rw [routeFinish_cacheWrites]
      cases bb <;> simp [h1, h2]

theorem directFetch_write_policy (cfg : OAuthConfig) (tok : TokenState)
    (c : FlightCacheState) (now : Nat) (bb : Bool) (w : RouteWorld) :
    (bb = true → (directFetch cfg tok c now bb w).cacheWrites = 0)
    ∧ (isFetched (directFetch cfg tok c now bb w).response = true →
        ((directFetch cfg tok c now bb w).cacheWrites = 1 ↔ bb = false)) := by
  unfold directFetch
  cases w.fetch1 with
  | timeout => exact ⟨fun _ => rfl, fun h => by simp [isFetched] at h⟩
  | netError m => exact ⟨fun _ => rfl, fun h => by simp [isFetched] at h⟩
  | resp s b => exact routeAfterFirst_write_policy ..
  | respBadJson s => exact routeAfterFirst_write_policy ..

theorem routeFinish_failure_policy (hA bb : Bool) (c : FlightCacheState) (now s : Nat)
    (b : Option Payload) (tok : TokenState) (n : Nat) :
    isFetched (routeFinish hA bb c now s b tok n).response = false →
    (∃ m, (routeFinish hA bb c now s b tok n).response = RouteResponse.errorResp m)
    ∧ (routeFinish hA bb c now s b tok n).cacheState = c
    ∧ (routeFinish hA bb c now s b tok n).cacheWrites = 0 := by
  unfold routeFinish
  cases hst : statusOk s
  · rw [if_pos rfl]
    exact fun _ => ⟨⟨_, rfl⟩, rfl, rfl⟩
  · rw [if_neg (by simp)]
    cases b with
    | none => exact fun _ => ⟨⟨_, rfl⟩, rfl, rfl⟩
    | some p =>
        dsimp only
        split
        · intro h
          simp [isFetched] at h
        · intro h
          simp [isFetched] at h

theorem routeAfterFirst_failure_policy (cfg : OAuthConfig) (c : FlightCacheState)
    (now : Nat) (hA bb : Bool) (tok : TokenState) (w : RouteWorld)
    (s : Nat) (b : Option Payload) :
    isFetched (routeAfterFirst cfg c now hA bb tok w s b).response = false →
    (∃ m, (routeAfterFirst cfg c now hA bb tok w s b).response = RouteResponse.errorResp m)
    ∧ (routeAfterFirst cfg c now hA bb tok w s b).cacheState = c
    ∧ (routeAfterFirst cfg c now hA bb tok w s b).cacheWrites = 0 := by
  unfold routeAfterFirst
  split
  · cases w.fetch2 with
    | timeout => exact fun _ => ⟨⟨_, rfl⟩, rfl, rfl⟩
    | netError m => exact fun _ => ⟨⟨_, rfl⟩, rfl, rfl⟩
    | resp s2 b2 =>
        dsimp only
        apply routeFinish_failure_policy
    | respBadJson s2 =>
        dsimp only
        apply routeFinish_failure_policy
  · apply routeFinish_failure_policy

theorem directFetch_failure_policy (cfg : OAuthConfig) (tok : TokenState)
    (c : FlightCacheState) (now : Nat) (bb : Bool) (w : RouteWorld) :
    isFetched (directFetch cfg tok c now bb w).response = false →
    (∃ m, (directFetch cfg tok c now bb w).response = RouteResponse.errorResp m)
    ∧ (directFetch cfg tok c now bb w).cacheState = c
    ∧ (directFetch cfg tok c now bb w).cacheWrites = 0 := by
  unfold directFetch
  cases w.fetch1 with
  | timeout => exact fun _ => ⟨⟨_, rfl⟩, rfl, rfl⟩
  | netError m => exact fun _ => ⟨⟨_, rfl⟩, rfl, rfl⟩
  | resp s b =>
      dsimp only
      apply routeAfterFirst_failure_policy
  | respBadJson s =>
      dsimp only
      apply routeAfterFirst_failure_policy

theorem cronFinish_failure_policy (c : FlightCacheState) (now dur : Nat) (hA : Bool)
    (tok : TokenState) (s : Nat) (b : Option Payload) (n : Nat) :
    (isCronSuccess (cronFinish c now dur hA tok s b n).response = false →
      (cronFinish c now dur hA tok s b n).cacheWrites = 0
      ∧ (cronFinish c now dur hA tok s b n).cacheState = c)
    ∧ (∀ (m : String) (d : Nat),
        (cronFinish c now dur hA tok s b n).response = CronResponse.failure m d →
        d = dur) := by
  unfold cronFinish
  cases hst : statusOk s
  · rw [if_pos rfl]
    refine ⟨fun _ => ⟨rfl, rfl⟩, fun m d h => ?_⟩
    injection h with h1 h2
    exact h2.symm
  · rw [if_neg (by simp)]
    cases b with
    | none =>
        refine ⟨fun _ => ⟨rfl, rfl⟩, fun m d h => ?_⟩
        injection h with h1 h2
        exact h2.symm
    | some p =>
        dsimp only
        refine ⟨fun h => ?_, fun m d h => ?_⟩
        · simp [isCronSuccess] at h
        · simp at h

theorem cronAfterFirst_failure_policy (cfg : OAuthConfig) (c : FlightCacheState)
    (now dur : Nat) (hA : Bool) (tok : TokenState) (w : RouteWorld)
    (s : Nat) (b : Option Payload) :
    (isCronSuccess (cronAfterFirst cfg c now dur hA tok w s b).response = false →
      (cronAfterFirst cfg c now dur hA tok w s b).cacheWrites = 0
      ∧ (cronAfterFirst cfg c now dur hA tok w s b).cacheState = c)
    ∧ (∀ (m : String) (d : Nat),
        (cronAfterFirst cfg c now dur hA tok w s b).response = CronResponse.failure m d →
        d = dur) := by
  unfold cronAfterFirst
  split
  · cases w.fetch2 with
    | timeout =>
        refine ⟨fun _ => ⟨rfl, rfl⟩, fun m d h => ?_⟩
        injection h with h1 h2
        exact h2.symm
    | netError m =>
        refine ⟨fun _ => ⟨rfl, rfl⟩, fun m d h => ?_⟩
        injection h with h1 h2
        exact h2.symm
    | resp s2 b2 => exact cronFinish_failure_policy ..
    | respBadJson s2 => exact cronFinish_failure_policy ..
  · exact cronFinish_failure_policy ..

theorem tokenReach_creds {cfg : OAuthConfig} {st : TokenState} (h : TokenReach cfg st) :
    ∀ t : String, st.cachedToken = some t → t ≠ "" →
      jsTruthy cfg.clientId = true ∧ jsTruthy cfg.clientSecret = true := by
  induction h with
  | init => intro t ht _; simp at ht
  | cleared st _ _ => intro t ht _; simp [clearTokenCache] at ht
  | step st now w _ ih =>
      intro t ht hne
      unfold getAccessToken at ht
      by_cases hv : tokenStillValid st now = true
      · rw [if_pos hv] at ht
        exact ih t ht hne
      · rw [if_neg hv] at ht
        by_cases hc : (!(jsTruthy cfg.clientId) || !(jsTruthy cfg.clientSecret)) = true
        · rw [if_pos hc] at ht
          exact ih t ht hne
        · cases hca : jsTruthy cfg.clientId <;> cases hcs : jsTruthy cfg.clientSecret <;>
            simp_all

/- ===== claim theorems ===== -/

/-- C4: with a cached token, each getAccessToken call returns the same cached
token with no exchange as long as now < expiry - 5 minutes; once now is at or
past that boundary the next call issues exactly one grant-exchange attempt
(credentials are necessarily configured whenever a token is cached, as the
third conjunct establishes for every reachable token state). -/
theorem c4_token_cache_reuse_boundary :
    (∀ (cfg : OAuthConfig) (st : TokenState) (now : Nat) (w : ExchangeOutcome)
        (t : String) (e : Nat),
      st.cachedToken = some t → st.tokenExpiry = some e → t ≠ "" → e ≠ 0 →
      (now : Int) < (e : Int) - 5 * 60 * 1000 →
      getAccessToken cfg st now w = ⟨some t, st, 0⟩)
    ∧ (∀ (cfg : OAuthConfig) (st : TokenState) (now : Nat) (w : ExchangeOutcome) (e : Nat),
      st.tokenExpiry = some e → (e : Int) - 5 * 60 * 1000 ≤ (now : Int) →
      jsTruthy cfg.clientId = true → jsTruthy cfg.clientSecret = true →
      (getAccessToken cfg st now w).exchanges = 1)
    ∧ (∀ (cfg : OAuthConfig) (st : TokenState), TokenReach cfg st →
      ∀ t : String, st.cachedToken = some t → t ≠ "" →
      jsTruthy cfg.clientId = true ∧ jsTruthy cfg.clientSecret = true) := by
  refine ⟨?_, ?_, ?_⟩
  · intro cfg st now w t e hct hte ht he hlt
    have hv : tokenStillValid st now = true := by
      unfold tokenStillValid
      rw [hct, hte]
      simp only [Bool.and_eq_true, decide_eq_true_eq]
      exact ⟨⟨ht, he⟩, hlt⟩
    unfold getAccessToken
    rw [if_pos hv, hct]
  · intro cfg st now w e hte hle hid hsec
    have hv : tokenStillValid st now = false := by
      unfold tokenStillValid
      rw [hte]
      cases st.cachedToken with
      | none => rfl
      | some t =>
          simp
          intro _ _
          linarith
    unfold getAccessToken
    rw [if_neg (by simp [hv]), if_neg (by simp [hid, hsec])]
    cases w <;> rfl
  · intro cfg st h t hct hne
    exact tokenReach_creds h t hct hne

/-- Witness for C4 at concrete inputs: a token expiring at 1000000 ms is
returned unchanged at now = 0, triggers exactly one exchange at now = 900000,
and a reachable cached-token state implies configured credentials. -/
theorem c4_token_cache_reuse_boundary_witness :
    getAccessToken ⟨some "id", some "sec"⟩ ⟨some "tok", some 1000000⟩ 0
        ExchangeOutcome.netError = ⟨some "tok", ⟨some "tok", some 1000000⟩, 0⟩
    ∧ (getAccessToken ⟨some "id", some "sec"⟩ ⟨some "tok", some 1000000⟩ 900000
        ExchangeOutcome.netError).exchanges = 1
    ∧ (jsTruthy (some "id") = true ∧ jsTruthy (some "sec") = true) := by
  refine ⟨?_, ?_, ?_⟩
  · exact c4_token_cache_reuse_boundary.1 ⟨some "id", some "sec"⟩
      ⟨some "tok", some 1000000⟩ 0 ExchangeOutcome.netError "tok" 1000000
      rfl rfl (by decide) (by decide) (by decide)
  · exact c4_token_cache_reuse_boundary.2.1 ⟨some "id", some "sec"⟩
      ⟨some "tok", some 1000000⟩ 900000 ExchangeOutcome.netError 1000000
      rfl (by decide) rfl rfl
  · exact c4_token_cache_reuse_boundary.2.2 ⟨some "id", some "sec"⟩ _
      (TokenReach.step ⟨none, none⟩ 0 (ExchangeOutcome.ok "tok" none) TokenReach.init)
      "tok" rfl (by decide)

/-- C8: with no cached token and a missing client identifier or secret,
getAccessToken returns absent immediately, leaves the state untouched, and
issues zero network calls. -/
theorem c8_missing_credentials_no_network (cfg : OAuthConfig) (st : TokenState)
    (now : Nat) (w : ExchangeOutcome) (hnone : st.cachedToken = none)
    (hmiss : jsTruthy cfg.clientId = false ∨ jsTruthy cfg.clientSecret = false) :
    getAccessToken cfg st now w = ⟨none, st, 0⟩ := by
  have hv : tokenStillValid st now = false := by
    unfold tokenStillValid
    rw [hnone]
  unfold getAccessToken
  rw [if_neg (by simp [hv]), if_pos (by rcases hmiss with h | h <;> simp [h])]

/-- Witness for C8: empty token cache and absent credentials yield absent
with zero exchanges. -/
theorem c8_missing_credentials_no_network_witness :
    getAccessToken ⟨none, none⟩ ⟨none, none⟩ 0 ExchangeOutcome.netError =
      ⟨none, ⟨none, none⟩, 0⟩ :=
  c8_missing_credentials_no_network ⟨none, none⟩ ⟨none, none⟩ 0
    ExchangeOutcome.netError rfl (Or.inl rfl)

/-- C1 counterexample: a snapshot captured 45 seconds ago IS served from
cache as a hit (zero upstream fetches), because hasFreshCache gates the hit on
the 60 second MAX_CACHE_AGE_MS window, not the 10 second fresh window. -/
theorem c1_counterexample :
    flightsGET ⟨none, none⟩ ⟨none, none⟩ (snapshotAt 1000) 46000 emptyParams idleWorld =
      ⟨RouteResponse.cacheHit [] (JsValue.jnum 1700000000) 0 "opensky-anonymous" 45,
        ⟨none, none⟩, snapshotAt 1000, 0, 0⟩ := by
  rfl

/-- C1 (amended): for a flights request without a complete bounding box and
without the force flag, the cached snapshot is served as a cache hit iff
hasFreshCache holds, i.e. iff a snapshot exists (with a truthy stamp) and its
age is below the 60 second maximum window MAX_CACHE_AGE_MS; the 10 second
CACHE_DURATION_MS fresh window does not gate the hit, so a snapshot captured
45 seconds ago is still served from cache. -/
theorem c1_cache_hit_window_amended (cfg : OAuthConfig) (tok : TokenState)
    (cache : FlightCacheState) (now : Nat) (p : QueryParams) (w : RouteWorld)
    (hbb : hasBoundingBox p = false) (hf : forceRefresh p = false) :
    (isCacheHit (flightsGET cfg tok cache now p w).response = true ↔
      hasFreshCache cache now = true)
    ∧ (hasFreshCache cache now = true ↔
      ∃ (c : CacheEntry) (t : Nat), cache.cachedFlightData = some c ∧
        cache.lastUpdateTime = some t ∧ t ≠ 0 ∧
        (now : Int) - (t : Int) < (MAX_CACHE_AGE_MS : Int)) := by
  constructor
  · unfold flightsGET
    rw [servesFromCache_eq_fresh p cache now hbb hf]
    cases hfc : hasFreshCache cache now
    · simp [directFetch_not_cacheHit]
    · have hsome := hasFreshCache_isSome cache now hfc
      obtain ⟨v, hv⟩ := Option.isSome_iff_exists.mp hsome
      simp [hv, isCacheHit]
  · cases hc : cache.cachedFlightData <;> cases ht : cache.lastUpdateTime <;>
      simp [hasFreshCache, hc, ht]

/-- Witness for the amended C1: a 45 second old snapshot is served as a hit. -/
theorem c1_cache_hit_window_amended_witness :
    isCacheHit (flightsGET ⟨none, none⟩ ⟨none, none⟩ (snapshotAt 1000) 46000
      emptyParams idleWorld).response = true :=
  (c1_cache_hit_window_amended ⟨none, none⟩ ⟨none, none⟩ (snapshotAt 1000) 46000
    emptyParams idleWorld rfl rfl).1.mpr (by decide)

/-- C2 counterexample: a prior snapshot exists (captured at 1000 ms, stale at
now = 71000 ms), the direct fetch fails with a network error, and the client
receives the explicit error response rather than the prior snapshot. -/
theorem c2_counterexample :
    flightsGET ⟨none, none⟩ ⟨none, none⟩ (snapshotAt 1000) 71000 emptyParams idleWorld =
      ⟨RouteResponse.errorResp "fetch failed", ⟨none, none⟩, snapshotAt 1000, 1, 0⟩ := by
  rfl

/-- C2 (amended): for every flights request that reaches the direct upstream
fetch (any query shape, any prior cache state) and whose fetch does not
produce a successful fetched response — timeout, network error, non-2xx after
any retry, or malformed body — the handler returns the explicit error
response, never a cache hit, and the snapshot cache is left exactly as it was
with zero setCachedFlights invocations, regardless of whether a prior
snapshot exists. -/
theorem c2_failure_error_response_amended (cfg : OAuthConfig) (tok : TokenState)
    (cache : FlightCacheState) (now : Nat) (p : QueryParams) (w : RouteWorld)
    (hserve : servesFromCache p cache now = false)
    (hfail : isFetched (flightsGET cfg tok cache now p w).response = false) :
    (∃ m, (flightsGET cfg tok cache now p w).response = RouteResponse.errorResp m)
    ∧ isCacheHit (flightsGET cfg tok cache now p w).response = false
    ∧ (flightsGET cfg tok cache now p w).cacheState = cache
    ∧ (flightsGET cfg tok cache now p w).cacheWrites = 0 := by
  unfold flightsGET at hfail ⊢
  rw [hserve] at hfail ⊢
  simp only [Bool.false_eq_true, if_false] at hfail ⊢
  obtain ⟨hm, hc, hw⟩ :=
    directFetch_failure_policy cfg tok cache now (hasBoundingBox p) w hfail
  exact ⟨hm, directFetch_not_cacheHit .., hc, hw⟩

/-- Witness for the amended C2: a force-refresh request with a fresh prior
snapshot whose direct fetch times out still gets the error response, and the
snapshot cache is untouched. -/
theorem c2_failure_error_response_amended_witness :
    (∃ m, (flightsGET ⟨none, none⟩ ⟨none, none⟩ (snapshotAt 1000) 5000
        ⟨none, none, none, none, some "true"⟩
        ⟨ExchangeOutcome.netError, FetchOutcome.timeout,
          ExchangeOutcome.netError, FetchOutcome.timeout⟩).response =
      RouteResponse.errorResp m)
    ∧ isCacheHit (flightsGET ⟨none, none⟩ ⟨none, none⟩ (snapshotAt 1000) 5000
        ⟨none, none, none, none, some "true"⟩
        ⟨ExchangeOutcome.netError, FetchOutcome.timeout,
          ExchangeOutcome.netError, FetchOutcome.timeout⟩).response = false
    ∧ (flightsGET ⟨none, none⟩ ⟨none, none⟩ (snapshotAt 1000) 5000
        ⟨none, none, none, none, some "true"⟩
        ⟨ExchangeOutcome.netError, FetchOutcome.timeout,
          ExchangeOutcome.netError, FetchOutcome.timeout⟩).cacheState = snapshotAt 1000
    ∧ (flightsGET ⟨none, none⟩ ⟨none, none⟩ (snapshotAt 1000) 5000
        ⟨none, none, none, none, some "true"⟩
        ⟨ExchangeOutcome.netError, FetchOutcome.timeout,
          ExchangeOutcome.netError, FetchOutcome.timeout⟩).cacheWrites = 0 :=
  c2_failure_error_response_amended ⟨none, none⟩ ⟨none, none⟩ (snapshotAt 1000) 5000
    ⟨none, none, none, none, some "true"⟩
    ⟨ExchangeOutcome.netError, FetchOutcome.timeout,
      ExchangeOutcome.netError, FetchOutcome.timeout⟩
    rfl (by decide)

/-- C5: a flights request with a complete (truthy) bounding box never invokes
setCachedFlights, and a successful direct fetch writes the snapshot cache
exactly when the request carried no complete bounding box (any missing or
empty bound makes the fetch global and cached). -/
theorem c5_cache_write_iff_global (cfg : OAuthConfig) (tok : TokenState)
    (cache : FlightCacheState) (now : Nat) (p : QueryParams) (w : RouteWorld) :
    (hasBoundingBox p = true → (flightsGET cfg tok cache now p w).cacheWrites = 0)
    ∧ (isFetched (flightsGET cfg tok cache now p w).response = true →
        ((flightsGET cfg tok cache now p w).cacheWrites = 1 ↔
          hasBoundingBox p = false)) := by
  unfold flightsGET
  split
  · cases hv : getCachedFlights cache now with
    | none => exact ⟨fun _ => rfl, fun h => by simp [isFetched] at h⟩
    | some v => exact ⟨fun _ => rfl, fun h => by simp [isFetched] at h⟩
  · exact directFetch_write_policy ..

/-- Witness for C5: a global (no bounding box) successful fetch writes the
cache once. -/
theorem c5_cache_write_iff_global_witness :
    (flightsGET ⟨none, none⟩ ⟨none, none⟩ ⟨none, none⟩ 5000 emptyParams
      ⟨ExchangeOutcome.netError, FetchOutcome.resp 200 ⟨JsValue.jnum 5, some []⟩,
        ExchangeOutcome.netError, FetchOutcome.netError "x"⟩).cacheWrites = 1 :=
  ((c5_cache_write_iff_global ⟨none, none⟩ ⟨none, none⟩ ⟨none, none⟩ 5000 emptyParams
    ⟨ExchangeOutcome.netError, FetchOutcome.resp 200 ⟨JsValue.jnum 5, some []⟩,
      ExchangeOutcome.netError, FetchOutcome.netError "x"⟩).2 (by decide)).mpr rfl

/-- C3: on a 401 from an authenticated first states fetch the handler retries
exactly once (two states fetches in total, the retry running on the cleared,
re-derived token state); a 401 on the retry surfaces the authentication
failure message with no third fetch; an anonymous 401 is never retried. -/
theorem c3_one_shot_reauth (cfg : OAuthConfig) (tok : TokenState)
    (cache : FlightCacheState) (now : Nat) (p : QueryParams) (w : RouteWorld)
    (hserve : servesFromCache p cache now = false) :
    (∀ b : Payload,
      (getAuthHeaders cfg tok now w.exchange1).authorization.isSome = true →
      w.fetch1 = FetchOutcome.resp 401 b →
      (flightsGET cfg tok cache now p w).statesFetches = 2
      ∧ (∀ b2 : Payload, w.fetch2 = FetchOutcome.resp 401 b2 →
          (flightsGET cfg tok cache now p w).response =
            RouteResponse.errorResp authFailedMessage)
      ∧ (∀ (s2 : Nat) (b2 : Payload), w.fetch2 = FetchOutcome.resp s2 b2 →
          (flightsGET cfg tok cache now p w).tokState =
            (getAuthHeaders cfg clearTokenCache now w.exchange2).state))
    ∧ (∀ b : Payload,
      (getAuthHeaders cfg tok now w.exchange1).authorization = none →
      w.fetch1 = FetchOutcome.resp 401 b →
      (flightsGET cfg tok cache now p w).statesFetches = 1
      ∧ (flightsGET cfg tok cache now p w).response =
          RouteResponse.errorResp authFailedMessage) := by
  unfold flightsGET
  rw [hserve]
  simp only [Bool.false_eq_true, if_false]
  constructor
  · intro b hauth hf1
    unfold directFetch
    rw [hf1]
    dsimp only
    rw [hauth]
    unfold routeAfterFirst
    rw [if_pos ⟨rfl, rfl⟩]
    refine ⟨?_, ?_, ?_⟩
    · cases w.fetch2 <;> simp [routeFinish_statesFetches]
    · intro b2 hf2
      rw [hf2]
      rfl
    · intro s2 b2 hf2
      rw [hf2]
      dsimp only
      exact routeFinish_tokState ..
  · intro b hanon hf1
    unfold directFetch
    rw [hf1]
    dsimp only
    rw [hanon]
    unfold routeAfterFirst
    rw [if_neg (by simp)]
    constructor
    · exact routeFinish_statesFetches ..
    · rfl

/-- Witness for C3: authenticated request, 401 then 401, exactly two fetches
and the authentication-failure error. -/
theorem c3_one_shot_reauth_witness :
    (flightsGET ⟨some "id", some "sec"⟩ ⟨none, none⟩ ⟨none, none⟩ 0 emptyParams
      ⟨ExchangeOutcome.ok "tok" none, FetchOutcome.resp 401 ⟨JsValue.jnull, none⟩,
        ExchangeOutcome.ok "tok2" none,
        FetchOutcome.resp 401 ⟨JsValue.jnull, none⟩⟩).statesFetches = 2
    ∧ (flightsGET ⟨some "id", some "sec"⟩ ⟨none, none⟩ ⟨none, none⟩ 0 emptyParams
      ⟨ExchangeOutcome.ok "tok" none, FetchOutcome.resp 401 ⟨JsValue.jnull, none⟩,
        ExchangeOutcome.ok "tok2" none,
        FetchOutcome.resp 401 ⟨JsValue.jnull, none⟩⟩).response =
      RouteResponse.errorResp authFailedMessage := by
  have h := (c3_one_shot_reauth ⟨some "id", some "sec"⟩ ⟨none, none⟩ ⟨none, none⟩ 0
    emptyParams
    ⟨ExchangeOutcome.ok "tok" none, FetchOutcome.resp 401 ⟨JsValue.jnull, none⟩,
      ExchangeOutcome.ok "tok2" none, FetchOutcome.resp 401 ⟨JsValue.jnull, none⟩⟩
    rfl).1 ⟨JsValue.jnull, none⟩ (by decide) rfl
  exact ⟨h.1, h.2.1 ⟨JsValue.jnull, none⟩ rfl⟩

/-- C9: the provenance tag comes from the initial headers only: when an
authenticated request gets a 401, the token re-exchange fails so the retry is
issued anonymously, and the retry succeeds, the response and the cached
snapshot are still tagged opensky-authenticated. -/
theorem c9_provenance_from_initial_headers (cfg : OAuthConfig) (tok : TokenState)
    (cache : FlightCacheState) (now : Nat) (p : QueryParams) (w : RouteWorld)
    (b1 b2 : Payload)
    (hserve : servesFromCache p cache now = false)
    (hbb : hasBoundingBox p = false)
    (hauth : (getAuthHeaders cfg tok now w.exchange1).authorization.isSome = true)
    (hf1 : w.fetch1 = FetchOutcome.resp 401 b1)
    (_hanon : (getAuthHeaders cfg clearTokenCache now w.exchange2).authorization = none)
    (hf2 : w.fetch2 = FetchOutcome.resp 200 b2) :
    (flightsGET cfg tok cache now p w).response =
      RouteResponse.fetched (normalizeStates b2.states) b2.time
        (normalizeStates b2.states).length "opensky-authenticated"
    ∧ (flightsGET cfg tok cache now p w).cacheState =
      setCachedFlights ⟨normalizeStates b2.states, b2.time,
        (normalizeStates b2.states).length, "opensky-authenticated"⟩ now := by
  unfold flightsGET
  rw [hserve]
  simp only [Bool.false_eq_true, if_false]
  unfold directFetch
  rw [hf1]
  dsimp only
  rw [hauth]
  unfold routeAfterFirst
  rw [if_pos ⟨rfl, rfl⟩]
  rw [hf2]
  dsimp only
  rw [hbb]
  exact ⟨rfl, rfl⟩

/-- Witness for C9: concrete run in which the retry goes out anonymously yet
the result is tagged and cached as authenticated. -/
theorem c9_provenance_from_initial_headers_witness :
    (flightsGET ⟨some "id", some "sec"⟩ ⟨none, none⟩ ⟨none, none⟩ 7000 emptyParams
      ⟨ExchangeOutcome.ok "tok" none, FetchOutcome.resp 401 ⟨JsValue.jnull, none⟩,
        ExchangeOutcome.netError,
        FetchOutcome.resp 200 ⟨JsValue.jnum 9, some []⟩⟩).response =
      RouteResponse.fetched [] (JsValue.jnum 9) 0 "opensky-authenticated" := by
  have h := c9_provenance_from_initial_headers ⟨some "id", some "sec"⟩ ⟨none, none⟩
    ⟨none, none⟩ 7000 emptyParams
    ⟨ExchangeOutcome.ok "tok" none, FetchOutcome.resp 401 ⟨JsValue.jnull, none⟩,
      ExchangeOutcome.netError, FetchOutcome.resp 200 ⟨JsValue.jnum 9, some []⟩⟩
    ⟨JsValue.jnull, none⟩ ⟨JsValue.jnum 9, some []⟩
    rfl rfl (by decide) rfl (by decide) rfl
  exact h.1

/-- C6: normalization maps each raw row positionally onto the 17-field record
layout, every record in the output has non-null coordinates (null-coordinate
rows are dropped), every row with non-null coordinates survives, and a row
with both coordinates present and all other fields null still yields a
record. -/
theorem c6_normalization_mapping :
    (∀ row : List JsValue,
      mkFlightRecord row = ⟨listIdx row 0, jtrim (listIdx row 1), listIdx row 2,
        listIdx row 3, listIdx row 4, listIdx row 5, listIdx row 6, listIdx row 7,
        listIdx row 8, listIdx row 9, listIdx row 10, listIdx row 11, listIdx row 12,
        listIdx row 13, listIdx row 14, listIdx row 15, listIdx row 16⟩)
    ∧ (∀ (states : List (List JsValue)) (f : FlightRecord),
        f ∈ normalizeStates (some states) →
        f.longitude ≠ JsValue.jnull ∧ f.latitude ≠ JsValue.jnull)
    ∧ (∀ (states : List (List JsValue)) (row : List JsValue), row ∈ states →
        listIdx row 5 ≠ JsValue.jnull → listIdx row 6 ≠ JsValue.jnull →
        mkFlightRecord row ∈ normalizeStates (some states))
    ∧ normalizeStates (some [coordOnlyRow]) = [coordOnlyRecord] := by
  refine ⟨fun row => rfl, ?_, ?_, by rfl⟩
  · intro states f hf
    unfold normalizeStates at hf
    rw [List.mem_filter] at hf
    have hc := hf.2
    unfold keepsCoords at hc
    simp only [Bool.and_eq_true, decide_eq_true_eq] at hc
    exact hc
  · intro states row hrow h5 h6
    unfold normalizeStates
    rw [List.mem_filter]
    refine ⟨List.mem_map_of_mem _ hrow, ?_⟩
    unfold keepsCoords
    simp only [Bool.and_eq_true, decide_eq_true_eq]
    exact ⟨h5, h6⟩

/-- Witness for C6: the all-null-but-coordinates row survives normalization
and its record has non-null coordinates. -/
theorem c6_normalization_mapping_witness :
    mkFlightRecord coordOnlyRow ∈ normalizeStates (some [coordOnlyRow])
    ∧ (coordOnlyRecord.longitude ≠ JsValue.jnull ∧
        coordOnlyRecord.latitude ≠ JsValue.jnull) :=
  ⟨c6_normalization_mapping.2.2.1 [coordOnlyRow] coordOnlyRow (by decide)
      (by decide) (by decide),
    c6_normalization_mapping.2.1 [coordOnlyRow] coordOnlyRecord (by decide)⟩

/-- C10: the filter removes only rows whose coordinate entries are exactly
null, so a raw row too short to carry coordinate positions (undefined there)
passes the filter and yields a positionless record; concretely, a run over a
payload holding one single-entry row returns and caches that positionless
record. -/
theorem c10_undefined_coords_pass_filter :
    (∀ (states : List (List JsValue)) (row : List JsValue), row ∈ states →
      row.length ≤ 5 →
      mkFlightRecord row ∈ normalizeStates (some states)
      ∧ (mkFlightRecord row).longitude = JsValue.jundef
      ∧ (mkFlightRecord row).latitude = JsValue.jundef)
    ∧ flightsGET ⟨none, none⟩ ⟨none, none⟩ ⟨none, none⟩ 5000 emptyParams
        ⟨ExchangeOutcome.netError,
          FetchOutcome.resp 200 ⟨JsValue.jnum 5, some [[JsValue.jstr "abc"]]⟩,
          ExchangeOutcome.netError, FetchOutcome.netError "x"⟩ =
      ⟨RouteResponse.fetched [shortRowRecord] (JsValue.jnum 5) 1 "opensky-anonymous",
        ⟨none, none⟩,
        setCachedFlights ⟨[shortRowRecord], JsValue.jnum 5, 1, "opensky-anonymous"⟩ 5000,
        1, 1⟩ := by
  constructor
  · intro states row hrow hlen
    have h5 : listIdx row 5 = JsValue.jundef :=
      List.getD_eq_default row JsValue.jundef hlen
    have h6 : listIdx row 6 = JsValue.jundef :=
      List.getD_eq_default row JsValue.jundef (le_trans hlen (by norm_num))
    refine ⟨?_, h5, h6⟩
    unfold normalizeStates
    rw [List.mem_filter]
    refine ⟨List.mem_map_of_mem _ hrow, ?_⟩
    unfold keepsCoords
    simp only [Bool.and_eq_true, decide_eq_true_eq]
    constructor
    · show listIdx row 5 ≠ JsValue.jnull
      rw [h5]
      simp
    · show listIdx row 6 ≠ JsValue.jnull
      rw [h6]
      simp
  · rfl

/-- Witness for C10: the single-entry row passes the filter with undefined
coordinates. -/
theorem c10_undefined_coords_pass_filter_witness :
    mkFlightRecord [JsValue.jstr "abc"] ∈ normalizeStates (some [[JsValue.jstr "abc"]])
    ∧ (mkFlightRecord [JsValue.jstr "abc"]).longitude = JsValue.jundef
    ∧ (mkFlightRecord [JsValue.jstr "abc"]).latitude = JsValue.jundef :=
  c10_undefined_coords_pass_filter.1 [[JsValue.jstr "abc"]] [JsValue.jstr "abc"]
    (by decide) (by decide)

/-- C7 counterexample: an unauthorized cron trigger is a failing run, yet its
response is the bare unauthorized error body, whose shape carries no duration
field, contradicting the claim that every failing run returns a failure
summary including a duration (the cache is indeed left untouched). -/
theorem c7_counterexample :
    cronGET ⟨none, none⟩ ⟨none, none⟩ (snapshotAt 1000) 90000 123 none (some "s")
      idleWorld =
      ⟨CronResponse.unauthorized, ⟨none, none⟩, snapshotAt 1000, 0, 0⟩ := by
  rfl

/-- C7 (amended): every non-successful cron run leaves the snapshot cache
exactly as it was and never invokes setCachedFlights; every caught failure
(timeout, network error, upstream error, malformed payload) is reported as a
structured failure summary carrying the run duration; an unauthorized trigger
instead returns the bare 401 unauthorized body, which carries no duration. -/
theorem c7_cron_failure_amended (cfg : OAuthConfig) (tok : TokenState)
    (cache : FlightCacheState) (now dur : Nat) (ah cs : Option String)
    (w : RouteWorld) :
    (isCronSuccess (cronGET cfg tok cache now dur ah cs w).response = false →
      (cronGET cfg tok cache now dur ah cs w).cacheWrites = 0
      ∧ (cronGET cfg tok cache now dur ah cs w).cacheState = cache)
    ∧ (∀ (m : String) (d : Nat),
        (cronGET cfg tok cache now dur ah cs w).response = CronResponse.failure m d →
        d = dur)
    ∧ (∀ s : String, cs = some s → s ≠ "" → ah ≠ some ("Bearer " ++ s) →
        (cronGET cfg tok cache now dur ah cs w).response = CronResponse.unauthorized) := by
  unfold cronGET
  split
  · exact ⟨fun _ => ⟨rfl, rfl⟩, fun m d h => by simp at h, fun s _ _ _ => rfl⟩
  · rename_i hcond
    refine ⟨?_, ?_, ?_⟩
    · cases w.fetch1 with
      | timeout => exact fun _ => ⟨rfl, rfl⟩
      | netError m => exact fun _ => ⟨rfl, rfl⟩
      | resp s b => exact (cronAfterFirst_failure_policy ..).1
      | respBadJson s => exact (cronAfterFirst_failure_policy ..).1
    · cases w.fetch1 with
      | timeout =>
          intro m d h
          injection h with h1 h2
          exact h2.symm
      | netError msg =>
          intro m d h
          injection h with h1 h2
          exact h2.symm
      | resp s b => exact (cronAfterFirst_failure_policy ..).2
      | respBadJson s => exact (cronAfterFirst_failure_policy ..).2
    · intro s hcs hs hne
      exfalso
      apply hcond
      rw [hcs]
      simp only [Option.getD_some, Bool.and_eq_true, Bool.not_eq_true']
      refine ⟨by simp [jsTruthy, hs], ?_⟩
      cases hb : ah == some ("Bearer " ++ s)
      · rfl
      · exact absurd (eq_of_beq hb) hne

/-- Witness for the amended C7: a network-failing cron run writes nothing,
preserves the cache, and reports the supplied duration. -/
theorem c7_cron_failure_amended_witness :
    ((cronGET ⟨none, none⟩ ⟨none, none⟩ (snapshotAt 1000) 90000 321 none none
        idleWorld).cacheWrites = 0
      ∧ (cronGET ⟨none, none⟩ ⟨none, none⟩ (snapshotAt 1000) 90000 321 none none
        idleWorld).cacheState = snapshotAt 1000)
    ∧ (321 : Nat) = 321 :=
  ⟨(c7_cron_failure_amended ⟨none, none⟩ ⟨none, none⟩ (snapshotAt 1000) 90000 321
      none none idleWorld).1 (by decide),
    (c7_cron_failure_amended ⟨none, none⟩ ⟨none, none⟩ (snapshotAt 1000) 90000 321
      none none idleWorld).2.1 "fetch failed" 321 (by decide)⟩

end Avara
